import Mathlib

/-!
Shallow embedding of the Food-Recommendation-System core
(`shared_functions.py`, `enhanced_rag_chatbot.py`).

External collaborators (the ChromaDB index and the OpenAI gateway) are
modelled as explicit inputs: the index's answer to a query is a value of
type `Except String (List RawHit)` (an exception or a list of hits), and
the generation gateway's answer is an `Except String String`.  Raw float
distances are modelled as exact rationals `ℚ`; the arithmetic performed on
them (`1 - distance`, `* 100`) is exact in either field.
-/

namespace FoodRec

/-- One raw hit returned by `collection.query`: ChromaDB returns parallel
arrays `ids[0]`, `metadatas[0]`, `distances[0]` of equal length; a `RawHit`
is the `i`-th column of those arrays. -/
structure RawHit where
  id : String
  name : Option String
  description : Option String
  cuisine_type : Option String
  calories : Option Int
  distance : ℚ
  deriving Repr, DecidableEq, Inhabited

/-- The value stored under the optional `food_ingredients` key of a result
dict: either a Python list of strings or some other value, kept by its
string rendering (the code only distinguishes `isinstance(_, list)`). -/
inductive IngredientsVal where
  | list (xs : List String)
  | str (s : String)
  deriving Repr, DecidableEq

/-- A formatted result dict as built by `perform_similarity_search` /
`perform_filtered_similarity_search`.  The last four fields are the keys
that those two functions never set but that `prepare_context_for_llm`
reads with `.get` (they default to `none` = key absent). -/
structure SearchResult where
  food_id : String
  food_name : String
  food_description : String
  cuisine_type : String
  food_calories_per_serving : Int
  similarity_score : ℚ
  distance : ℚ
  food_ingredients : Option IngredientsVal := none
  food_health_benefits : Option String := none
  cooking_method : Option String := none
  taste_profile : Option String := none
  deriving Repr, DecidableEq, Inhabited

/-- The body of the formatting loop shared by both search functions:
`similarity_score = 1 - distances[0][i]`, metadata fields read with
`.get(key, default)`. -/
def formatHit (h : RawHit) : SearchResult :=
  { food_id := h.id
    food_name := h.name.getD "N/A"
    food_description := h.description.getD "N/A"
    cuisine_type := h.cuisine_type.getD "N/A"
    food_calories_per_serving := h.calories.getD 0
    similarity_score := 1 - h.distance
    distance := h.distance }

/-- `perform_similarity_search` (`shared_functions.py` lines 124-154).
The collaborator call `collection.query(...)` is the input `resp`; a
raised exception is `Except.error`.  The `if not results or ...` guard
returns `[]`, which coincides with formatting an empty hit list. -/
def perform_similarity_search (resp : Except String (List RawHit)) : List SearchResult :=
  match resp with
  | .error _ => []
  | .ok hits => hits.map formatHit

/-- One metadata filter predicate of the `where` clause. -/
inductive FilterPred where
  | cuisineEq (c : String)
  | caloriesLte (n : Int)
  deriving Repr, DecidableEq

/-- The `where_clause` value handed to `collection.query`: a single
predicate dict, or an `$and` of a list of predicate dicts. -/
inductive WhereClause where
  | pred (p : FilterPred)
  | andAll (ps : List FilterPred)
  deriving Repr, DecidableEq

/-- The `filters` list built by `perform_filtered_similarity_search`
(lines 160-165): the cuisine predicate is appended under Python truthiness
(`if cuisine_filter:`), the calories predicate under `is not None`. -/
def buildFilters (cuisine_filter : Option String) (max_calories : Option Int) :
    List FilterPred :=
  (match cuisine_filter with
   | some c => if c = "" then [] else [FilterPred.cuisineEq c]
   | none => []) ++
  (match max_calories with
   | some m => [FilterPred.caloriesLte m]
   | none => [])

/-- The `where_clause` selection (lines 167-170): `None` for no filters,
the single dict for one, `{"$and": filters}` for more. -/
def whereClauseOf (cuisine_filter : Option String) (max_calories : Option Int) :
    Option WhereClause :=
  match buildFilters cuisine_filter max_calories with
  | [] => none
  | [f] => some (WhereClause.pred f)
  | fs => some (WhereClause.andAll fs)

/-- `perform_filtered_similarity_search` (lines 156-201).  The collaborator
is modelled as a function from the composed `where_clause` to the query
outcome; the formatting loop is identical to the unfiltered one. -/
def perform_filtered_similarity_search
    (collab : Option WhereClause → Except String (List RawHit))
    (cuisine_filter : Option String) (max_calories : Option Int) :
    List SearchResult :=
  match collab (whereClauseOf cuisine_filter max_calories) with
  | .error _ => []
  | .ok hits => hits.map formatHit

/-- Python truthiness of an optional string value (`.get` then `if v:`):
the key is present and the string non-empty. -/
def optStrTruthy : Option String → Bool
  | some s => !(s == "")
  | none => false

/-- Python truthiness of the optional `food_ingredients` value. -/
def ingTruthy : Option IngredientsVal → Bool
  | some (.list xs) => !xs.isEmpty
  | some (.str s) => !(s == "")
  | none => false

/-- Rendering of `f"{x:.1f}"` on the exact rational model of the float:
round to one decimal place (half away from zero, a faithful-enough stand-in
for CPython float formatting on the exact values used here). -/
def fmtFixed1 (x : ℚ) : String :=
  let n : Int := if x < 0 then -Int.floor (-x * 10 + 1/2) else Int.floor (x * 10 + 1/2)
  (if n < 0 then "-" else "") ++ toString (n.natAbs / 10) ++ "." ++ toString (n.natAbs % 10)

/-- The per-result block of `prepare_context_for_llm` (lines 52-77):
`i` is the 1-based option index from `enumerate(search_results[:3], 1)`. -/
def foodBlock (i : Nat) (result : SearchResult) : List String :=
  ["Option " ++ toString i ++ ": " ++ result.food_name,
   "  - Description: " ++ result.food_description,
   "  - Cuisine: " ++ result.cuisine_type,
   "  - Calories: " ++ toString result.food_calories_per_serving ++ " per serving"] ++
  (if ingTruthy result.food_ingredients then
     [match result.food_ingredients with
      | some (.list xs) => "  - Key ingredients: " ++ String.intercalate ", " (xs.take 5)
      | some (.str s) => "  - Key ingredients: " ++ s
      | none => ""]
   else []) ++
  (if optStrTruthy result.food_health_benefits then
     ["  - Health benefits: " ++ result.food_health_benefits.getD ""]
   else []) ++
  (if optStrTruthy result.cooking_method then
     ["  - Cooking method: " ++ result.cooking_method.getD ""]
   else []) ++
  (if optStrTruthy result.taste_profile then
     ["  - Taste profile: " ++ result.taste_profile.getD ""]
   else []) ++
  ["  - Similarity score: " ++ fmtFixed1 (result.similarity_score * 100) ++ "%",
   ""]

/-- `prepare_context_for_llm` (`enhanced_rag_chatbot.py` lines 42-79). -/
def prepare_context_for_llm (_query : String) (search_results : List SearchResult) :
    String :=
  if search_results.isEmpty then
    "No relevant food items found in the database."
  else
    String.intercalate "\n"
      (["Based on the user's query, here are the most relevant food options from our database:",
        ""] ++
       ((search_results.take 3).enum.flatMap fun p => foodBlock (p.1 + 1) p.2))

/-- Truncation of a result's ingredients list to its first 5 entries (the
spec's prompt-length control); used to state that
`prepare_context_for_llm` never reads past the fifth ingredient. -/
def truncateIngredients (r : SearchResult) : SearchResult :=
  { r with food_ingredients :=
      match r.food_ingredients with
      | some (.list xs) => some (.list (xs.take 5))
      | o => o }

/-- `generate_fallback_response` (lines 82-97). -/
def generate_fallback_response (query : String) (search_results : List SearchResult) :
    String :=
  match search_results with
  | [] =>
      "I couldn't find any food items matching your request. Try describing what you're in the mood for with different words!"
  | top_result :: rest =>
      let part1 := "Based on your request for '" ++ query ++ "', I'd recommend " ++
        top_result.food_name ++ "."
      let part2 := "It's a " ++ top_result.cuisine_type ++ " dish with " ++
        toString top_result.food_calories_per_serving ++ " calories per serving."
      let response_parts :=
        match rest with
        | [] => [part1, part2]
        | second_choice :: _ =>
            [part1, part2, "Another great option would be " ++ second_choice.food_name ++ "."]
      String.intercalate " " response_parts

/-- One value of the optional `food_features` mapping: the code keeps
`str(value)` for every truthy value, so an entry is modelled by its
truthiness and its string rendering (keys are never used). -/
structure FeatEntry where
  truthy : Bool
  rendered : String
  deriving Repr, DecidableEq

/-- The raw `food_features` value: a dict (its values in iteration order)
or some non-dict value (rejected by the `isinstance(..., dict)` check). -/
inductive FeaturesVal where
  | dict (values : List FeatEntry)
  | nondict
  deriving Repr, DecidableEq

/-- The raw `food_nutritional_factors` value: a dict of key/value pairs
(values by their string rendering) or a non-dict value. -/
inductive NutritionVal where
  | dict (entries : List (String × String))
  | nondict
  deriving Repr, DecidableEq

/-- A raw record of the JSON catalog as read by `load_food_data`:
`none` = key absent.  `food_id` is modelled by the string rendering of the
raw value (the code immediately applies `str(...)` to it). -/
structure RawRecord where
  food_id : Option String := none
  food_name : String := ""
  food_ingredients : Option (List String) := none
  food_description : Option String := none
  cuisine_type : Option String := none
  food_calories_per_serving : Option Int := none
  food_features : Option FeaturesVal := none
  food_health_benefits : Option String := none
  cooking_method : Option String := none
  food_nutritional_factors : Option NutritionVal := none
  deriving Repr, DecidableEq

/-- A record after the in-place normalization loop of `load_food_data`:
the defaulted keys are now always present, and `taste_profile` is added. -/
structure LoadedRecord where
  food_id : String
  food_name : String
  food_ingredients : List String
  food_description : String
  cuisine_type : String
  food_calories_per_serving : Int
  taste_profile : String
  food_health_benefits : Option String
  cooking_method : Option String
  food_nutritional_factors : Option NutritionVal
  deriving Repr, DecidableEq

/-- The body of the `for i, item in enumerate(food_data)` loop of
`load_food_data` (`shared_functions.py` lines 17-39); `i` is 0-based, the
synthesized id is `str(i + 1)`. -/
def processRecord (i : Nat) (item : RawRecord) : LoadedRecord :=
  { food_id :=
      match item.food_id with
      | some s => s
      | none => toString (i + 1)
    food_name := item.food_name
    food_ingredients := item.food_ingredients.getD []
    food_description := item.food_description.getD ""
    cuisine_type := item.cuisine_type.getD "Unknown"
    food_calories_per_serving := item.food_calories_per_serving.getD 0
    taste_profile :=
      match item.food_features with
      | some (.dict values) =>
          String.intercalate ", " ((values.filter (·.truthy)).map (·.rendered))
      | _ => ""
    food_health_benefits := item.food_health_benefits
    cooking_method := item.cooking_method
    food_nutritional_factors := item.food_nutritional_factors }

/-- `load_food_data` (lines 11-43).  The file read plus `json.load` is the
input `parsed`; any exception (unreadable file, malformed JSON, a container
that is not a sequence of mapping records) is `Except.error` and hits the
`except` clause, which logs and returns `[]`. -/
def load_food_data (parsed : Except String (List RawRecord)) : List LoadedRecord :=
  match parsed with
  | .error _ => []
  | .ok food_data => food_data.enum.map fun p => processRecord p.1 p.2

/-- A record as consumed by `populate_similarity_collection`, which reads
every key except `food_name` defensively with `.get`. -/
structure PopulateRecord where
  food_name : String
  food_description : Option String := none
  food_ingredients : Option (List String) := none
  cuisine_type : Option String := none
  cooking_method : Option String := none
  taste_profile : Option String := none
  food_health_benefits : Option String := none
  food_nutritional_factors : Option NutritionVal := none
  food_id : Option String := none
  food_calories_per_serving : Option Int := none
  deriving Repr, DecidableEq

/-- The metadata dict registered with the collection for one food item
(`shared_functions.py` lines 106-115). -/
structure IndexMetadata where
  name : String
  cuisine_type : String
  ingredients : String
  calories : Int
  description : String
  cooking_method : String
  health_benefits : String
  taste_profile : String
  deriving Repr, DecidableEq

/-- The `document_text` synthesized for one food item (lines 76-94). -/
def documentTextOf (food : PopulateRecord) : String :=
  "Name: " ++ food.food_name ++ ". " ++
  "Description: " ++ food.food_description.getD "" ++ ". " ++
  "Ingredients: " ++ String.intercalate ", " (food.food_ingredients.getD []) ++ ". " ++
  "Cuisine: " ++ food.cuisine_type.getD "Unknown" ++ ". " ++
  "Cooking method: " ++ food.cooking_method.getD "" ++ ". " ++
  (if optStrTruthy food.taste_profile then
    "Taste and features: " ++ food.taste_profile.getD "" ++ ". "
   else "") ++
  (if optStrTruthy food.food_health_benefits then
    "Health benefits: " ++ food.food_health_benefits.getD "" ++ ". "
   else "") ++
  (match food.food_nutritional_factors with
   | some (.dict entries) =>
       "Nutrition: " ++
       String.intercalate ", " (entries.map fun e => e.1 ++ ": " ++ e.2) ++ "."
   | _ => "")

/-- The metadata built for one food item (lines 106-115). -/
def metadataOf (food : PopulateRecord) : IndexMetadata :=
  { name := food.food_name
    cuisine_type := food.cuisine_type.getD "Unknown"
    ingredients := String.intercalate ", " (food.food_ingredients.getD [])
    calories := food.food_calories_per_serving.getD 0
    description := food.food_description.getD ""
    cooking_method := food.cooking_method.getD ""
    health_benefits := food.food_health_benefits.getD ""
    taste_profile := food.taste_profile.getD "" }

/-- The `while unique_id in used_ids` loop (lines 98-101), made total with
fuel: with fuel `f` it tries the suffixed candidates at counters
`c, c+1, ...` and returns the candidate at counter `c + f` unchecked when
the fuel runs out (never reached at the fuel used below). -/
def uniqueIdLoop (used_ids : List String) (base_id : String) :
    Nat → Nat → String
  | 0, counter => base_id ++ "_" ++ toString counter
  | fuel + 1, counter =>
      let candidate := base_id ++ "_" ++ toString counter
      if candidate ∈ used_ids then uniqueIdLoop used_ids base_id fuel (counter + 1)
      else candidate

/-- Id disambiguation for one item (lines 96-102): keep `base_id` if it is
fresh, otherwise append `_1`, `_2`, … until unique.  `used_ids.length + 1`
rounds of the loop always suffice (proved below). -/
def uniqueIdOf (used_ids : List String) (base_id : String) : String :=
  if base_id ∈ used_ids then uniqueIdLoop used_ids base_id (used_ids.length + 1) 1
  else base_id

/-- The accumulator of the populate loop: the three parallel arrays handed
to `collection.add`, plus the `used_ids` set (modelled as a list). -/
structure Batch where
  documents : List String
  metadatas : List IndexMetadata
  ids : List String
  used_ids : List String
  deriving Repr, DecidableEq

/-- One iteration of the `for i, food in enumerate(food_items)` loop of
`populate_similarity_collection`; the id defaults to the 0-based index
`i` when `food_id` is absent (`str(food.get('food_id', i))`). -/
def populateStep (acc : Batch) (p : Nat × PopulateRecord) : Batch :=
  let food := p.2
  let base_id :=
    match food.food_id with
    | some s => s
    | none => toString p.1
  let unique_id := uniqueIdOf acc.used_ids base_id
  { documents := acc.documents ++ [documentTextOf food]
    metadatas := acc.metadatas ++ [metadataOf food]
    ids := acc.ids ++ [unique_id]
    used_ids := unique_id :: acc.used_ids }

/-- `populate_similarity_collection` (lines 67-121): builds the batch that
is registered with the collection in one `collection.add` call. -/
def populate_similarity_collection (food_items : List PopulateRecord) : Batch :=
  food_items.enum.foldl populateStep ⟨[], [], [], []⟩

/-- Python's `str.strip()`: drop whitespace from both ends (modelled over
the character list so that it evaluates by kernel reduction). -/
def pyStrip (s : String) : String :=
  ⟨((s.data.dropWhile Char.isWhitespace).reverse.dropWhile
      Char.isWhitespace).reverse⟩

/-- `generate_llm_rag_response` (lines 100-145).  The whole gateway round
trip (`client_openai.chat.completions.create` down to
`completion.choices[0].message.content`) is the input `gateway`: `.error`
when anything in the `try` block raises, `.ok text` otherwise.  On success
the code strips the text and falls back when the stripped length is below
50. -/
def generate_llm_rag_response (gateway : Except String String) (query : String)
    (search_results : List SearchResult) : String :=
  match gateway with
  | .error _ => generate_fallback_response query search_results
  | .ok generated_response =>
      let response_text := pyStrip generated_response
      if response_text.length < 50 then generate_fallback_response query search_results
      else response_text

/-- Containment of the rendering of `t` somewhere inside `s`. -/
def strContains (s t : String) : Prop :=
  ∃ l r : List Char, s.data = l ++ t.data ++ r

/-- Decimal value of a digit character (left inverse of `Nat.digitChar`
on `0..9`), used to prove that numeral rendering is injective. -/
def digitVal (c : Char) : Nat := c.toNat - 48

/-- Value of a digit-character list, most significant first. -/
def digitsVal (l : List Char) : Nat :=
  l.foldl (fun acc c => acc * 10 + digitVal c) 0

/-- A concrete raw hit at cosine distance `1/4`, for witnesses. -/
def exHit : RawHit :=
  { id := "1", name := some "Pizza Margherita", description := some "classic"
    cuisine_type := some "Italian", calories := some 300, distance := 1/4 }

/-- A concrete raw hit at cosine distance `3/2` (legal for a cosine-space
index), for the similarity-score counterexample. -/
def exHitFar : RawHit :=
  { id := "2", name := some "Som Tam", description := none
    cuisine_type := none, calories := none, distance := 3/2 }

/-- A concrete search result, for witnesses. -/
def exResult : SearchResult :=
  { food_id := "1", food_name := "Pizza Margherita", food_description := "classic"
    cuisine_type := "Italian", food_calories_per_serving := 300
    similarity_score := 3/4, distance := 1/4 }

/-- A second concrete search result, for witnesses. -/
def exResult2 : SearchResult :=
  { food_id := "2", food_name := "Pad Thai", food_description := "noodles"
    cuisine_type := "Thai", food_calories_per_serving := 400
    similarity_score := 1/2, distance := 1/2 }

/-- A third concrete search result, for witnesses. -/
def exResult3 : SearchResult :=
  { food_id := "3", food_name := "Falafel", food_description := "chickpea"
    cuisine_type := "Middle Eastern", food_calories_per_serving := 250
    similarity_score := 1/4, distance := 3/4
    food_ingredients := some (.list ["chickpeas", "garlic", "cumin", "parsley", "onion", "flour", "oil"]) }

/-- A record carrying the duplicated source id `"7"`, for the
id-disambiguation example. -/
def rec7 : PopulateRecord := { food_name := "Dish Seven", food_id := some "7" }

/-! ## Helper lemmas -/

theorem intercalate_pair (s a b : String) :
    String.intercalate s [a, b] = a ++ s ++ b := rfl

theorem intercalate_triple (s a b c : String) :
    String.intercalate s [a, b, c] = a ++ s ++ b ++ s ++ c := rfl

theorem strContains_of_eq (s a t b : String) (h : s = a ++ (t ++ b)) :
    strContains s t :=
  ⟨a.data, b.data, by subst h; simp [String.data_append]⟩

/-- Every formatted hit carries `similarity_score = 1 - distance`. -/
theorem score_of_mem_map {r : SearchResult} {hits : List RawHit}
    (h : r ∈ hits.map formatHit) : r.similarity_score = 1 - r.distance := by
  obtain ⟨a, -, rfl⟩ := List.mem_map.1 h
  rfl

/-- Results of the unfiltered search are formatted hits. -/
theorem mem_search_score {r : SearchResult} {resp : Except String (List RawHit)}
    (h : r ∈ perform_similarity_search resp) :
    r.similarity_score = 1 - r.distance := by
  cases resp with
  | error e => simp [perform_similarity_search] at h
  | ok hits => exact score_of_mem_map h

/-- Results of the filtered search are formatted hits. -/
theorem mem_filtered_search_score {r : SearchResult}
    {collab : Option WhereClause → Except String (List RawHit)}
    {cf : Option String} {mc : Option Int}
    (h : r ∈ perform_filtered_similarity_search collab cf mc) :
    r.similarity_score = 1 - r.distance := by
  unfold perform_filtered_similarity_search at h
  cases hq : collab (whereClauseOf cf mc) with
  | error e => rw [hq] at h; simp at h
  | ok hits => rw [hq] at h; exact score_of_mem_map h

/-- `Nat.digitChar` renders the digits `0..9` faithfully for `digitVal`. -/
theorem digitVal_digitChar : ∀ m : Nat, m < 10 → digitVal (Nat.digitChar m) = m := by
  decide

/-- Correctness of the core numeral printer against `digitsVal`. -/
theorem toDigitsCore_val : ∀ (fuel n : Nat) (ds : List Char), n < 10 ^ fuel →
    digitsVal (Nat.toDigitsCore 10 fuel n ds)
      = List.foldl (fun acc c => acc * 10 + digitVal c) n ds := by
  intro fuel
  induction fuel with
  | zero =>
      intro n ds h
      have hn : n = 0 := by simpa using h
      subst hn
      rfl
  | succ f ih =>
      intro n ds hlt
      simp only [Nat.toDigitsCore]
      split
      · next h0 =>
          have hn : n < 10 := by omega
          have hmod : n % 10 = n := Nat.mod_eq_of_lt hn
          simp only [digitsVal, List.foldl]
          rw [hmod, digitVal_digitChar n hn]
          simp [digitsVal]
      · next h0 =>
          have hdiv : n / 10 < 10 ^ f := by
            rw [Nat.div_lt_iff_lt_mul (by norm_num)]
            calc n < 10 ^ (f + 1) := hlt
            _ = 10 ^ f * 10 := by ring
          rw [ih _ _ hdiv]
          simp only [List.foldl]
          congr 1
          rw [digitVal_digitChar _ (Nat.mod_lt _ (by norm_num))]
          omega

/-- `digitsVal` is a left inverse of decimal printing. -/
theorem digitsVal_toDigits (n : Nat) : digitsVal (Nat.toDigits 10 n) = n := by
  unfold Nat.toDigits
  rw [toDigitsCore_val (n + 1) n []]
  · rfl
  · calc n < 10 ^ n := Nat.lt_pow_self (by norm_num) n
    _ ≤ 10 ^ (n + 1) := Nat.pow_le_pow_right (by norm_num) (Nat.le_succ n)

/-- Decimal rendering of naturals is injective. -/
theorem natToString_inj {a b : Nat} (h : toString a = toString b) : a = b := by
  have hd : Nat.toDigits 10 a = Nat.toDigits 10 b := by
    have h2 : Nat.repr a = Nat.repr b := h
    unfold Nat.repr at h2
    have h3 := congrArg String.data h2
    simpa [List.asString] using h3
  have ha := digitsVal_toDigits a
  rw [hd, digitsVal_toDigits b] at ha
  exact ha.symm

/-- Distinct counters give distinct suffixed id candidates. -/
theorem suffixCand_inj (base : String) {k1 k2 : Nat}
    (h : base ++ "_" ++ toString k1 = base ++ "_" ++ toString k2) : k1 = k2 := by
  apply natToString_inj
  apply String.ext
  have h2 := congrArg String.data h
  simp only [String.data_append, List.append_assoc] at h2
  exact List.append_cancel_left (List.append_cancel_left h2)

/-- Pigeonhole: among `used.length + 2` consecutive suffixed candidates at
least one is fresh. -/
theorem exists_fresh_cand (used : List String) (base : String) (c : Nat) :
    ∃ k, c ≤ k ∧ k ≤ c + used.length + 1 ∧ (base ++ "_" ++ toString k) ∉ used := by
  by_contra hcon
  push_neg at hcon
  have hsub : ∀ x ∈ (List.range' c (used.length + 2)).map
      (fun k => base ++ "_" ++ toString k), x ∈ used := by
    intro x hx
    obtain ⟨k, hk, rfl⟩ := List.mem_map.1 hx
    obtain ⟨i, hi, rfl⟩ := List.mem_range'.1 hk
    exact hcon _ (by omega) (by omega)
  have hnodup : ((List.range' c (used.length + 2)).map
      (fun k => base ++ "_" ++ toString k)).Nodup := by
    refine List.Nodup.map_on ?_ (List.nodup_range' c (used.length + 2))
    intro x _ y _ hxy
    exact suffixCand_inj base hxy
  have h1 := List.toFinset_card_of_nodup hnodup
  have h2 : ((List.range' c (used.length + 2)).map
      (fun k => base ++ "_" ++ toString k)).toFinset ⊆ used.toFinset := by
    intro x hx
    exact List.mem_toFinset.2 (hsub x (List.mem_toFinset.1 hx))
  have h3 := Finset.card_le_card h2
  have h4 := List.toFinset_card_le used
  simp [List.length_range'] at h1
  omega

/-- The fueled disambiguation loop returns a fresh id as soon as its
counter window contains one. -/
theorem uniqueIdLoop_not_mem (used : List String) (base : String) :
    ∀ (fuel c : Nat),
      (∃ k, c ≤ k ∧ k ≤ c + fuel ∧ (base ++ "_" ++ toString k) ∉ used) →
      uniqueIdLoop used base fuel c ∉ used := by
  intro fuel
  induction fuel with
  | zero =>
      intro c ⟨k, h1, h2, h3⟩
      have : k = c := by omega
      subst this
      exact h3
  | succ f ih =>
      intro c ⟨k, h1, h2, h3⟩
      simp only [uniqueIdLoop]
      split
      · next hmem =>
          apply ih
          rcases Nat.eq_or_lt_of_le h1 with heq | hlt
          · exact absurd (heq ▸ hmem) h3
          · exact ⟨k, by omega, by omega, h3⟩
      · next hmem => exact hmem

/-- The disambiguated id is never one of the already-used ids. -/
theorem uniqueIdOf_not_mem (used : List String) (base : String) :
    uniqueIdOf used base ∉ used := by
  unfold uniqueIdOf
  split
  · next hmem =>
      apply uniqueIdLoop_not_mem
      obtain ⟨k, h1, h2, h3⟩ := exists_fresh_cand used base 1
      exact ⟨k, h1, by omega, h3⟩
  · next hmem => exact hmem

/-- Invariant of the populate loop: the emitted ids stay pairwise distinct
and are all recorded in `used_ids`. -/
theorem populate_inv :
    ∀ (l : List (Nat × PopulateRecord)) (acc : Batch),
      acc.ids.Nodup → (∀ x ∈ acc.ids, x ∈ acc.used_ids) →
      ((l.foldl populateStep acc).ids.Nodup ∧
        ∀ x ∈ (l.foldl populateStep acc).ids, x ∈ (l.foldl populateStep acc).used_ids) := by
  intro l
  induction l with
  | nil => intro acc h1 h2; exact ⟨h1, h2⟩
  | cons p t ih =>
      intro acc h1 h2
      simp only [List.foldl_cons]
      apply ih
      · simp only [populateStep, List.nodup_append]
        refine ⟨h1, List.nodup_singleton _, ?_⟩
        intro x hx hx1
        simp only [List.mem_singleton] at hx1
        subst hx1
        exact uniqueIdOf_not_mem acc.used_ids _ (h2 _ hx)
      · intro x hx
        simp only [populateStep, List.mem_append, List.mem_singleton] at hx
        simp only [populateStep, List.mem_cons]
        rcases hx with hx | hx
        · exact Or.inr (h2 _ hx)
        · exact Or.inl hx

/-! ## C1 — similarity score is `1 - distance` -/

/-- C1: for every SearchResult produced by a search (unfiltered or
filtered), `similarity_score` equals `1 - distance`, where `distance` is
the raw distance reported by the index for that hit. -/
theorem claim_C1 (resp : Except String (List RawHit))
    (collab : Option WhereClause → Except String (List RawHit))
    (cf : Option String) (mc : Option Int) (r : SearchResult) :
    (r ∈ perform_similarity_search resp →
      r.similarity_score = 1 - r.distance) ∧
    (r ∈ perform_filtered_similarity_search collab cf mc →
      r.similarity_score = 1 - r.distance) :=
  ⟨mem_search_score, mem_filtered_search_score⟩

/-- Witness for C1 at a concrete hit. -/
theorem claim_C1_witness :
    (formatHit exHit).similarity_score = 1 - (formatHit exHit).distance :=
  (claim_C1 (.ok [exHit]) (fun _ => .ok [exHit]) none none (formatHit exHit)).1
    (by simp [perform_similarity_search])

/-! ## C2 — similarity score range -/

/-- C2 counterexample: a hit at cosine distance `3/2 ∈ [0,2]` yields
`similarity_score = -1/2`, outside `[0,1]`. -/
theorem claim_C2_counterexample :
    (perform_similarity_search (.ok [exHitFar])).map (·.similarity_score)
        = [-(1/2 : ℚ)] ∧
    (0 : ℚ) ≤ exHitFar.distance ∧ exHitFar.distance ≤ 2 ∧
    ¬ (0 : ℚ) ≤ -(1/2 : ℚ) := by
  refine ⟨?_, by norm_num [exHitFar], by norm_num [exHitFar], by norm_num⟩
  simp [perform_similarity_search, formatHit, exHitFar]
  norm_num

/-- C2 (amended): for raw distances in the cosine range `[0,2]` the
similarity score lies in `[-1,1]`; it lies in `[0,1]` exactly when the
distance is at most `1`, and within that it is higher for smaller
distances (more relevant hits). -/
theorem claim_C2 (resp : Except String (List RawHit))
    (collab : Option WhereClause → Except String (List RawHit))
    (cf : Option String) (mc : Option Int) (r : SearchResult)
    (hmem : r ∈ perform_similarity_search resp ∨
      r ∈ perform_filtered_similarity_search collab cf mc)
    (h0 : 0 ≤ r.distance) (h2 : r.distance ≤ 2) :
    -1 ≤ r.similarity_score ∧ r.similarity_score ≤ 1 ∧
      (0 ≤ r.similarity_score ↔ r.distance ≤ 1) := by
  have hs : r.similarity_score = 1 - r.distance := by
    rcases hmem with h | h
    · exact mem_search_score h
    · exact mem_filtered_search_score h
  rw [hs]
  constructor
  · linarith
  · constructor
    · linarith
    · constructor <;> intro <;> linarith

/-- Witness for C2 at a concrete hit of distance `1/4`. -/
theorem claim_C2_witness :
    -1 ≤ (formatHit exHit).similarity_score ∧
      (formatHit exHit).similarity_score ≤ 1 ∧
      (0 ≤ (formatHit exHit).similarity_score ↔ (formatHit exHit).distance ≤ 1) :=
  claim_C2 (.ok [exHit]) (fun _ => .ok [exHit]) none none (formatHit exHit)
    (Or.inl (by simp [perform_similarity_search]))
    (by norm_num [formatHit, exHit]) (by norm_num [formatHit, exHit])

/-! ## C3 — filter composition -/

/-- C3 counterexample: with `cuisine_filter = ""` (set, but falsy in
Python) and `max_calories = 300` (both constraints set), the composed
`where` clause is the single calories predicate, not the AND of both. -/
theorem claim_C3_counterexample :
    whereClauseOf (some "") (some 300)
        = some (WhereClause.pred (FilterPred.caloriesLte 300)) ∧
    whereClauseOf (some "") (some 300)
        ≠ some (WhereClause.andAll
            [FilterPred.cuisineEq "", FilterPred.caloriesLte 300]) := by
  constructor <;> decide

/-- C3 (amended): with "set" meaning a non-empty cuisine string (an empty
string counts as unset) and any `max_calories` integer, the engine builds
no predicates when both are unset, exactly the single corresponding
predicate when exactly one is set, and the AND-conjunction of both (cuisine
first) when both are set. -/
theorem claim_C3 (cf : Option String) (mc : Option Int) :
    (cf = none → mc = none → whereClauseOf cf mc = none) ∧
    (∀ c, cf = some c → c ≠ "" → mc = none →
      whereClauseOf cf mc = some (WhereClause.pred (FilterPred.cuisineEq c))) ∧
    (∀ m, cf = none → mc = some m →
      whereClauseOf cf mc = some (WhereClause.pred (FilterPred.caloriesLte m))) ∧
    (∀ c m, cf = some c → c ≠ "" → mc = some m →
      whereClauseOf cf mc = some (WhereClause.andAll
        [FilterPred.cuisineEq c, FilterPred.caloriesLte m])) := by
  refine ⟨?_, ?_, ?_, ?_⟩
  · rintro rfl rfl; rfl
  · rintro c rfl hc rfl
    simp [whereClauseOf, buildFilters, hc]
  · rintro m rfl rfl; rfl
  · rintro c m rfl hc rfl
    simp [whereClauseOf, buildFilters, hc]

/-- Witness for C3 at `("Thai", 300)`. -/
theorem claim_C3_witness :
    whereClauseOf (some "Thai") (some 300) = some (WhereClause.andAll
      [FilterPred.cuisineEq "Thai", FilterPred.caloriesLte 300]) :=
  (claim_C3 (some "Thai") (some 300)).2.2.2 "Thai" 300 rfl (by decide) rfl

/-! ## C4 — index failure yields an empty, indistinguishable result -/

/-- C4: when the underlying index query raises, both search operations
return `[]` instead of propagating, and that return value coincides with
the one produced by a successful query with zero hits. -/
theorem claim_C4 (e : String) (cf : Option String) (mc : Option Int) :
    perform_similarity_search (.error e) = [] ∧
    perform_filtered_similarity_search (fun _ => .error e) cf mc = [] ∧
    perform_similarity_search (.ok []) = [] ∧
    perform_filtered_similarity_search (fun _ => .ok []) cf mc = [] :=
  ⟨rfl, rfl, rfl, rfl⟩

/-! ## C5 — generation failure falls back to the deterministic summary -/

/-- C5: for every query and results list, a raising gateway, or a gateway
answer whose stripped length is below 50 characters, makes
`generate_llm_rag_response` return exactly
`generate_fallback_response query results`. -/
theorem claim_C5 (gw : Except String String) (q : String)
    (rs : List SearchResult) :
    (∀ e, gw = .error e →
      generate_llm_rag_response gw q rs = generate_fallback_response q rs) ∧
    (∀ t, gw = .ok t → (pyStrip t).length < 50 →
      generate_llm_rag_response gw q rs = generate_fallback_response q rs) := by
  constructor
  · rintro e rfl; rfl
  · rintro t rfl h
    simp [generate_llm_rag_response, h]

/-- Witness for C5: a gateway that returns the too-short text "ok". -/
theorem claim_C5_witness :
    generate_llm_rag_response (.ok "ok") "pasta" [exResult]
      = generate_fallback_response "pasta" [exResult] :=
  (claim_C5 (.ok "ok") "pasta" [exResult]).2 "ok" rfl (by decide)

/-! ## C10 — truthiness asymmetry of the two filter constraints -/

/-- C10: the cuisine predicate is added only for a truthy (non-empty)
string, so `cuisine_filter = ""` composes exactly like `None`; the
calories predicate is added whenever `max_calories` is not `None`, so
`max_calories = 0` does add `calories <= 0`. -/
theorem claim_C10 (cf : Option String) (mc : Option Int) :
    whereClauseOf (some "") mc = whereClauseOf none mc ∧
    buildFilters (some "") mc = buildFilters none mc ∧
    buildFilters cf (some 0) = buildFilters cf none ++ [FilterPred.caloriesLte 0] ∧
    whereClauseOf none (some 0)
      = some (WhereClause.pred (FilterPred.caloriesLte 0)) := by
  refine ⟨?_, ?_, ?_, rfl⟩
  · cases mc <;> rfl
  · cases mc <;> rfl
  · cases cf with
    | none => rfl
    | some c =>
        by_cases hc : c = "" <;> simp [buildFilters, hc]

/-! ## String containment helpers -/

theorem strContains_appendL {s t : String} (u : String) (h : strContains s t) :
    strContains (s ++ u) t := by
  obtain ⟨l, r, hd⟩ := h
  exact ⟨l, r ++ u.data, by simp [String.data_append, hd]⟩

theorem strContains_appendR {s t : String} (u : String) (h : strContains s t) :
    strContains (u ++ s) t := by
  obtain ⟨l, r, hd⟩ := h
  exact ⟨u.data ++ l, r, by simp [String.data_append, hd]⟩

theorem strContains_refl (t : String) : strContains t t := ⟨[], [], by simp⟩

/-! ## C6 — fallback summary names exactly the first one or two results -/

/-- C6: for a non-empty results list the fallback summary names the item at
index 0 together with its cuisine and calories; with at least 2 entries it
also names the item at index 1; its output depends only on the first two
entries (so no item at index 2 or beyond is ever named); for an empty list
it returns the fixed no-match message. -/
theorem claim_C6 (q : String) (rs : List SearchResult) :
    (rs = [] → generate_fallback_response q rs =
      "I couldn't find any food items matching your request. Try describing what you're in the mood for with different words!") ∧
    (∀ r0 rest, rs = r0 :: rest →
      strContains (generate_fallback_response q rs) r0.food_name ∧
      strContains (generate_fallback_response q rs) r0.cuisine_type ∧
      strContains (generate_fallback_response q rs)
        (toString r0.food_calories_per_serving)) ∧
    (∀ r0 r1 rest, rs = r0 :: r1 :: rest →
      strContains (generate_fallback_response q rs) r1.food_name) ∧
    (∀ r0 r1 rest, rs = r0 :: r1 :: rest →
      generate_fallback_response q rs = generate_fallback_response q [r0, r1]) := by
  refine ⟨?_, ?_, ?_, ?_⟩
  · rintro rfl; rfl
  · rintro r0 rest rfl
    cases rest with
    | nil =>
        have hexp : generate_fallback_response q [r0]
            = ("Based on your request for '" ++ q ++ "', I'd recommend "
                ++ r0.food_name ++ ".") ++ " "
              ++ ("It's a " ++ r0.cuisine_type ++ " dish with "
                ++ toString r0.food_calories_per_serving
                ++ " calories per serving.") := rfl
        rw [hexp]
        refine ⟨?_, ?_, ?_⟩
        · apply strContains_appendL
          apply strContains_appendL
          apply strContains_appendL
          exact strContains_appendR _ (strContains_refl _)
        · apply strContains_appendR
          apply strContains_appendL
          apply strContains_appendL
          apply strContains_appendL
          exact strContains_appendR _ (strContains_refl _)
        · apply strContains_appendR
          apply strContains_appendL
          exact strContains_appendR _ (strContains_refl _)
    | cons r1 rest2 =>
        have hexp : generate_fallback_response q (r0 :: r1 :: rest2)
            = ("Based on your request for '" ++ q ++ "', I'd recommend "
                ++ r0.food_name ++ ".") ++ " "
              ++ ("It's a " ++ r0.cuisine_type ++ " dish with "
                ++ toString r0.food_calories_per_serving
                ++ " calories per serving.") ++ " "
              ++ ("Another great option would be " ++ r1.food_name ++ ".") := rfl
        rw [hexp]
        refine ⟨?_, ?_, ?_⟩
        · apply strContains_appendL
          apply strContains_appendL
          apply strContains_appendL
          apply strContains_appendL
          apply strContains_appendL
          exact strContains_appendR _ (strContains_refl _)
        · apply strContains_appendL
          apply strContains_appendL
          apply strContains_appendR
          apply strContains_appendL
          apply strContains_appendL
          apply strContains_appendL
          exact strContains_appendR _ (strContains_refl _)
        · apply strContains_appendL
          apply strContains_appendL
          apply strContains_appendR
          apply strContains_appendL
          exact strContains_appendR _ (strContains_refl _)
  · rintro r0 r1 rest rfl
    have hexp : generate_fallback_response q (r0 :: r1 :: rest)
        = ("Based on your request for '" ++ q ++ "', I'd recommend "
            ++ r0.food_name ++ ".") ++ " "
          ++ ("It's a " ++ r0.cuisine_type ++ " dish with "
            ++ toString r0.food_calories_per_serving
            ++ " calories per serving.") ++ " "
          ++ ("Another great option would be " ++ r1.food_name ++ ".") := rfl
    rw [hexp]
    apply strContains_appendR
    apply strContains_appendL
    exact strContains_appendR _ (strContains_refl _)
  · rintro r0 r1 rest rfl
    rfl

/-- Witness for C6: with two concrete results, the second result's name
appears in the fallback summary. -/
theorem claim_C6_witness :
    strContains (generate_fallback_response "noodles" [exResult, exResult2])
      exResult2.food_name :=
  (claim_C6 "noodles" [exResult, exResult2]).2.2.1 exResult exResult2 [] rfl

/-! ## C7 — context builder: sentinel, top 3 only, 5 ingredients only -/

/-- Pointwise: a rendered block never reads past the fifth ingredient. -/
theorem foodBlock_trunc (i : Nat) (r : SearchResult) :
    foodBlock i (truncateIngredients r) = foodBlock i r := by
  cases h : r.food_ingredients with
  | none => simp [truncateIngredients, foodBlock, h]
  | some v =>
      cases v with
      | str s => simp [truncateIngredients, foodBlock, h]
      | list xs =>
          cases xs with
          | nil => simp [truncateIngredients, foodBlock, h, ingTruthy]
          | cons a t =>
              simp [truncateIngredients, foodBlock, h, ingTruthy, List.take_take]

/-- Block rendering is invariant under ingredient truncation, listwise. -/
theorem blocks_map_trunc : ∀ l : List (ℕ × SearchResult),
    (l.map (Prod.map id truncateIngredients)).flatMap
        (fun p => foodBlock (p.1 + 1) p.2)
      = l.flatMap (fun p => foodBlock (p.1 + 1) p.2) := by
  intro l
  induction l with
  | nil => rfl
  | cons p t ih => simp [foodBlock_trunc, ih, Prod.map]

/-- The context depends only on the first three results. -/
theorem prepare_take3 (q : String) (rs : List SearchResult) :
    prepare_context_for_llm q rs = prepare_context_for_llm q (rs.take 3) := by
  cases rs with
  | nil => rfl
  | cons a t =>
      simp [prepare_context_for_llm, List.take_take]

/-- The context depends only on the first five ingredients of each result. -/
theorem prepare_trunc (q : String) (rs : List SearchResult) :
    prepare_context_for_llm q rs
      = prepare_context_for_llm q (rs.map truncateIngredients) := by
  cases rs with
  | nil => rfl
  | cons a t =>
      simp only [prepare_context_for_llm, List.map_cons, List.isEmpty_cons]
      rw [show truncateIngredients a :: List.map truncateIngredients t
            = List.map truncateIngredients (a :: t) from rfl,
        ← List.map_take, List.enum_map, blocks_map_trunc]

/-- With at least three results the context is the header followed by the
blocks of the first three results, in the given order. -/
theorem prepare_order (q : String) (r0 r1 r2 : SearchResult)
    (rest : List SearchResult) :
    prepare_context_for_llm q (r0 :: r1 :: r2 :: rest)
      = String.intercalate "\n"
          (["Based on the user's query, here are the most relevant food options from our database:",
            ""] ++ foodBlock 1 r0 ++ foodBlock 2 r1 ++ foodBlock 3 r2) := by
  have h1 : (r0 :: r1 :: r2 :: rest).take 3 = [r0, r1, r2] := rfl
  simp only [prepare_context_for_llm, List.isEmpty_cons, Bool.false_eq_true,
    if_false, h1]
  have h2 : ([r0, r1, r2].enum) = [(0, r0), (1, r1), (2, r2)] := rfl
  rw [h2]
  simp [List.flatMap_cons, List.append_assoc]

/-- C7: the context builder returns a fixed non-empty sentinel on an empty
results list; otherwise it renders at most the first 3 results in the given
order, and any ingredients list it renders is truncated to its first 5
entries (its output is invariant under dropping later results and later
ingredients). -/
theorem claim_C7 (q : String) (rs : List SearchResult) :
    (prepare_context_for_llm q [] = "No relevant food items found in the database." ∧
      "No relevant food items found in the database." ≠ "") ∧
    prepare_context_for_llm q rs = prepare_context_for_llm q (rs.take 3) ∧
    prepare_context_for_llm q rs
      = prepare_context_for_llm q (rs.map truncateIngredients) ∧
    (∀ r0 r1 r2 rest, rs = r0 :: r1 :: r2 :: rest →
      prepare_context_for_llm q rs
        = String.intercalate "\n"
            (["Based on the user's query, here are the most relevant food options from our database:",
              ""] ++ foodBlock 1 r0 ++ foodBlock 2 r1 ++ foodBlock 3 r2)) := by
  refine ⟨⟨rfl, by decide⟩, prepare_take3 q rs, prepare_trunc q rs, ?_⟩
  rintro r0 r1 r2 rest rfl
  exact prepare_order q r0 r1 r2 rest

/-- Witness for C7 at a concrete three-element results list. -/
theorem claim_C7_witness :
    prepare_context_for_llm "q" [exResult, exResult2, exResult3]
      = String.intercalate "\n"
          (["Based on the user's query, here are the most relevant food options from our database:",
            ""] ++ foodBlock 1 exResult ++ foodBlock 2 exResult2
            ++ foodBlock 3 exResult3) :=
  (claim_C7 "q" [exResult, exResult2, exResult3]).2.2.2
    exResult exResult2 exResult3 [] rfl

/-! ## C8 — loader error handling and per-record defaults -/

/-- C8 counterexample: when the source cannot be parsed, the loader does
not fail with `DataFormatError` — it catches the error and returns the
ordinary value `[]`, the very same value produced by a successfully parsed
empty catalog. -/
theorem claim_C8_counterexample :
    load_food_data (.error "input is not a sequence of mapping records") = [] ∧
    load_food_data (.error "input is not a sequence of mapping records")
      = load_food_data (.ok []) :=
  ⟨rfl, rfl⟩

/-- C8 (amended): when the source cannot be parsed as a sequence of mapping
records the loader catches the error and returns an empty catalog rather
than failing; it never fails because of a missing per-record field —
each record is normalized in place with id synthesized as the 1-based
sequence index string, description defaulted to `""`, cuisine to
`"Unknown"`, calories to `0` and ingredients to `[]`. -/
theorem claim_C8 :
    (∀ e, load_food_data (.error e) = []) ∧
    (∀ recs : List RawRecord, ∀ i : Nat, ∀ item, recs[i]? = some item →
      (load_food_data (.ok recs))[i]? = some (processRecord i item)) ∧
    (∀ i item, item.food_id = none →
      (processRecord i item).food_id = toString (i + 1)) ∧
    (∀ i item, item.food_description = none →
      (processRecord i item).food_description = "") ∧
    (∀ i item, item.cuisine_type = none →
      (processRecord i item).cuisine_type = "Unknown") ∧
    (∀ i item, item.food_calories_per_serving = none →
      (processRecord i item).food_calories_per_serving = 0) ∧
    (∀ i item, item.food_ingredients = none →
      (processRecord i item).food_ingredients = []) := by
  refine ⟨fun e => rfl, ?_, ?_, ?_, ?_, ?_, ?_⟩
  · intro recs i item h
    simp [load_food_data, List.getElem?_map, List.getElem?_enum, h]
  all_goals intro i item h
  all_goals simp [processRecord, h]

/-- Witness for C8: a one-record catalog whose record has no optional keys
loads to the fully defaulted record with id "1". -/
theorem claim_C8_witness :
    (load_food_data (.ok [{ food_name := "Plain" }]))[0]?
      = some (processRecord 0 { food_name := "Plain" }) ∧
    (processRecord 0 { food_name := "Plain" } : LoadedRecord).food_id = "1" ∧
    (processRecord 0 { food_name := "Plain" } : LoadedRecord).cuisine_type
      = "Unknown" := by
  refine ⟨claim_C8.2.1 [{ food_name := "Plain" }] 0 { food_name := "Plain" } rfl,
    ?_, ?_⟩
  · have h := claim_C8.2.2.1 0 ({ food_name := "Plain" } : RawRecord) rfl
    simpa using h
  · exact claim_C8.2.2.2.2.1 0 ({ food_name := "Plain" } : RawRecord) rfl

/-! ## C9 — registered document ids are pairwise distinct -/

/-- C9: the ids emitted by the populate step are pairwise distinct for
every catalog (clashing ids receive suffixes `_1`, `_2`, … until unique),
and two records that both carry `food_id "7"` yield exactly the two
document ids `"7"` and `"7_1"`. -/
theorem claim_C9 :
    (∀ items : List PopulateRecord,
      (populate_similarity_collection items).ids.Nodup) ∧
    (populate_similarity_collection [rec7, rec7]).ids = ["7", "7_1"] := by
  constructor
  · intro items
    exact (populate_inv items.enum ⟨[], [], [], []⟩ (by simp) (by simp)).1
  · decide

end FoodRec
